import Mathlib

/-!
Shallow embedding of the SOCKS5 proxy `src/pysoxy.py` (iOS-SOCKS-Server).

Bytes are modelled as `Nat` values; byte strings as `List Nat`.  Python
slicing `b[i:j]` becomes `(l.drop i).take (j - i)` (out-of-range slices
yield shorter lists, never an error), while indexing `b[i]` raises an
`IndexError` on a too-short buffer, which the embedding makes an explicit
result constructor.  Socket I/O is modelled by explicit parameters: the
buffer a `recv` returned, booleans saying whether a `sendall`/`connect`
succeeded, and lists recording what was sent.
-/

/-! ## Configuration and protocol constants (src/pysoxy.py lines 28-61) -/

def MAX_THREADS : Nat := 200

def BUFSIZE : Nat := 2048

def VER : Nat := 5

def M_NOAUTH : Nat := 0

def M_NOTAVAILABLE : Nat := 255

def CMD_CONNECT : Nat := 1

def ATYP_IPV4 : Nat := 1

def ATYP_DOMAINNAME : Nat := 3

/-! ## Handshake negotiator (`subnegotiation_client`, `subnegotiation`) -/

/-- Result of `subnegotiation_client`: either the returned method byte
(`M_NOAUTH` or `M_NOTAVAILABLE`) or an uncaught `IndexError` from
`identification_packet[1]` on a 1-byte buffer. -/
inductive SubnegResult where
  | method (m : Nat)
  | raiseIndexError
deriving DecidableEq, Repr

/-- Embeds `subnegotiation_client` (src/pysoxy.py lines 234-261) applied to
the buffer returned by the single `recv`.  Python checks
`VER != identification_packet[0:1]` first (an empty buffer fails this
check cleanly), then indexes `identification_packet[1]` (IndexError on a
1-byte buffer), takes `methods = identification_packet[2:]`, compares
`len(methods)` with `nmethods`, and scans `methods` for `M_NOAUTH`. -/
def subnegotiation_client (pkt : List Nat) : SubnegResult :=
  if pkt.take 1 ≠ [VER] then .method M_NOTAVAILABLE
  else
    match pkt.drop 1 with
    | [] => .raiseIndexError
    | nmethods :: methods =>
      if methods.length ≠ nmethods then .method M_NOTAVAILABLE
      else if M_NOAUTH ∈ methods then .method M_NOAUTH
      else .method M_NOTAVAILABLE

/-- Outcome of `subnegotiation`: whether it returned `True`, the list of
replies actually delivered to the client, and whether an exception escaped. -/
structure SubnegOutcome where
  success : Bool
  sent : List (List Nat)
  raised : Bool
deriving DecidableEq, Repr

/-- Embeds `subnegotiation` (src/pysoxy.py lines 264-286).  `sendOk` says
whether the `wrapper.sendall(reply)` call succeeds (a failed send delivers
nothing and is caught, returning `False`).  When the selected method is not
`M_NOAUTH` the function returns `False` immediately: no reply of any kind
is sent. -/
def subnegotiation (sendOk : Bool) (pkt : List Nat) : SubnegOutcome :=
  match subnegotiation_client pkt with
  | .raiseIndexError => ⟨false, [], true⟩
  | .method m =>
    if m ≠ M_NOAUTH then ⟨false, [], false⟩
    else if sendOk then ⟨true, [[VER, m]], false⟩
    else ⟨false, [], false⟩

/-! ## Request resolver (`request_client`, `request`, `connect_to_dst`) -/

/-- Destination parsed out of a CONNECT request: either the 4 raw IPv4
address bytes handed to `socket.inet_ntoa`, or the raw domain-name bytes. -/
inductive DstAddr where
  | ipv4 (bytes : List Nat)
  | domain (name : List Nat)
deriving DecidableEq, Repr

/-- Result of `request_client`: a parsed `(address, port)` pair, the clean
`return False`, or one of the uncaught exceptions the Python code can
raise on truncated buffers (`IndexError` from `s5_request[4]`,
`struct.error` from `unpack` of a non-2-byte slice, `OSError` from
`socket.inet_ntoa` of a non-4-byte slice). -/
inductive ReqResult where
  | ok (addr : DstAddr) (port : Nat)
  | fail
  | raiseIndexError
  | raiseStructError
  | raiseOSError
deriving DecidableEq, Repr

/-- Embeds `unpack(">H", bs)`: succeeds exactly on a 2-byte buffer,
big-endian; anything else raises `struct.error` (modelled as `none`). -/
def unpackPortBE (bs : List Nat) : Option Nat :=
  match bs with
  | [hi, lo] => some (hi * 256 + lo)
  | _ => none

/-- Embeds `pack(">H", p)`, the two big-endian port bytes of a reply. -/
def packPortBE (p : Nat) : List Nat :=
  [p / 256 % 256, p % 256]

/-- Embeds `request_client` (src/pysoxy.py lines 133-169) applied to the
buffer returned by its single `recv`.  The VER/CMD/RSV checks compare
1-byte slices (clean `False` on mismatch, even for short buffers); the
IPv4 arm calls `inet_ntoa(s5_request[4:8])` (OSError unless the slice has
exactly 4 bytes) then `unpack(">H", s5_request[8:10])`; the domain arm
indexes `s5_request[4]` (IndexError on a 4-byte buffer), slices the name
as `s5_request[5 : 5+sz]` and the port as
`s5_request[5+sz : 5+sz+2]` with no validation of the total length;
any other ATYP returns `False`. -/
def request_client (s5 : List Nat) : ReqResult :=
  if s5.take 1 ≠ [VER] ∨ (s5.drop 1).take 1 ≠ [CMD_CONNECT] ∨
      (s5.drop 2).take 1 ≠ [0] then
    .fail
  else if (s5.drop 3).take 1 = [ATYP_IPV4] then
    let addrBytes := (s5.drop 4).take 4
    if addrBytes.length ≠ 4 then .raiseOSError
    else
      match unpackPortBE ((s5.drop 8).take 2) with
      | some port => .ok (.ipv4 addrBytes) port
      | none => .raiseStructError
  else if (s5.drop 3).take 1 = [ATYP_DOMAINNAME] then
    match s5.drop 4 with
    | [] => .raiseIndexError
    | sz :: _ =>
      let name := (s5.drop 5).take sz
      match unpackPortBE ((s5.drop (5 + sz)).take 2) with
      | some port => .ok (.domain name) port
      | none => .raiseStructError
  else .fail

/-- Outcome of `connect_to_dst` (src/pysoxy.py lines 111-131) for a given
configuration.  `ifaceConfigured` models a non-empty `OUTGOING_INTERFACE`;
`bindPermitted` whether the `SO_BINDTODEVICE` `setsockopt` succeeds (it
raises `PermissionError` for non-root, which the code catches, printing
and calling `EXIT.set_status(True)`, then falls through); `connectOk`
whether `sock.connect` succeeds (failure is caught and `0` returned). -/
structure DstConnectOutcome where
  exitFlagSet : Bool
  connectAttempted : Bool
  connected : Bool
deriving DecidableEq, Repr

/-- Embeds the control flow of `connect_to_dst`: the `PermissionError`
handler sets the global exit flag but does not return, so the outbound
`connect` is attempted in every case. -/
def connect_to_dst (ifaceConfigured bindPermitted connectOk : Bool) :
    DstConnectOutcome :=
  let exitSet := ifaceConfigured && !bindPermitted
  ⟨exitSet, true, connectOk⟩

/-- What `request` delivered to the client: the 10-byte reply actually
sent, or nothing because `request_client` raised out of the thread. -/
inductive ReplySent where
  | sent (reply : List Nat)
  | raisedParse
deriving DecidableEq, Repr

/-- The local address/port the outbound socket reports via `getsockname`
when the connect succeeded. -/
structure ConnectAttempt where
  ok : Bool
  localAddr : List Nat
  localPort : Nat
deriving DecidableEq, Repr

/-- Embeds the reply construction of `request` (src/pysoxy.py lines
207-217): `rep` starts as `0x07` and `bnd` as six zero bytes, but before
the reply is sent `rep` is overwritten to `0x01` whenever parsing or the
connect failed and to `0x00` (with the real bound address) on success, so
`0x07` never reaches the wire.  A parse exception propagates before any
reply is built. -/
def requestReply (s5 : List Nat) (conn : ConnectAttempt) : ReplySent :=
  match request_client s5 with
  | .ok _ _ =>
    if conn.ok then
      .sent ([VER, 0, 0, ATYP_IPV4] ++ conn.localAddr ++ packPortBE conn.localPort)
    else .sent [VER, 1, 0, ATYP_IPV4, 0, 0, 0, 0, 0, 0]
  | .fail => .sent [VER, 1, 0, ATYP_IPV4, 0, 0, 0, 0, 0, 0]
  | _ => .raisedParse

/-! ## Per-connection lifecycle (`connection`, `request` tail) -/

/-- The external events one connection's thread observes: the handshake
buffer its first `recv` returns, whether the handshake `sendall` succeeds,
whether the request-phase `recv` raises `ConnectionResetError`, the
request buffer otherwise, whether the outbound connect succeeds, and
whether the reply `sendall` succeeds. -/
structure ConnWorld where
  handshakePkt : List Nat
  handshakeSendOk : Bool
  requestRecvReset : Bool
  requestPkt : List Nat
  connectOk : Bool
  replySendOk : Bool
deriving DecidableEq, Repr

/-- Socket bookkeeping when the thread function `connection` exits: how
many times `wrapper.close()` ran, whether the outbound connect succeeded
(so a destination socket is held), how many times it was closed, and
whether an exception escaped the thread. -/
structure ConnOutcome where
  clientCloses : Nat
  dstOpened : Bool
  dstCloses : Nat
  uncaught : Bool
deriving DecidableEq, Repr

/-- Embeds `connection` (src/pysoxy.py lines 289-292) together with the
close/teardown logic of `request` (lines 218-231) and `subnegotiation`.
Paths, reading the Python: a handshake failure returns from `connection`
without closing anything; a `ConnectionResetError` on the request `recv`
closes the wrapper inside `request_client`, after which `request` still
builds a failure reply and its `sendall` on the closed socket raises
`socket.error`, closing the wrapper a second time; an uncaught parser
exception kills the thread with both sockets unclosed; a reply `sendall`
failure closes only the wrapper, leaving a successfully connected
destination socket open; only the paths that reach the final
`wrapper.close()` / `socket_dst.close()` lines close each socket once. -/
def runConnection (w : ConnWorld) : ConnOutcome :=
  match subnegotiation_client w.handshakePkt with
  | .raiseIndexError => ⟨0, false, 0, true⟩
  | .method m =>
    if m ≠ M_NOAUTH then ⟨0, false, 0, false⟩
    else if ¬ w.handshakeSendOk then ⟨0, false, 0, false⟩
    else if w.requestRecvReset then ⟨2, false, 0, false⟩
    else
      match request_client w.requestPkt with
      | .raiseIndexError => ⟨0, false, 0, true⟩
      | .raiseStructError => ⟨0, false, 0, true⟩
      | .raiseOSError => ⟨0, false, 0, true⟩
      | .fail => ⟨1, false, 0, false⟩
      | .ok _ _ =>
        if ¬ w.connectOk then ⟨1, false, 0, false⟩
        else if ¬ w.replySendOk then ⟨1, true, 0, false⟩
        else ⟨1, true, 1, false⟩

/-! ## Relay engine (`proxy_loop`) -/

/-- One iteration of the relay loop as its environment presents it: the
`EXIT` flag value at the loop head, whether `select.select` raises, and
which of the two watched sockets it reports readable. -/
structure Iter where
  exitNow : Bool
  selectError : Bool
  readySrc : Bool
  readyDst : Bool
deriving DecidableEq, Repr

/-- Why `proxy_loop` returned (or `scheduleEnd` when the modelled
iteration schedule ran out with the loop still live). -/
inductive StopReason where
  | exitSignal
  | selectError
  | peerClosed
  | scheduleEnd
deriving DecidableEq, Repr

/-- Accumulated effect of a `proxy_loop` run: the chunks forwarded to each
socket, the unread remainder of each incoming stream, and why it
stopped. -/
structure LoopResult where
  sentToSrc : List (List Nat)
  sentToDst : List (List Nat)
  srcRest : List (List Nat)
  dstRest : List (List Nat)
  reason : StopReason
deriving DecidableEq, Repr

/-- One body execution of `proxy_loop` (src/pysoxy.py lines 89-108):
either a return (with the chunks forwarded before it) or updated incoming
streams plus the chunks forwarded this iteration. -/
inductive StepOut where
  | stop (reason : StopReason) (qs qd : List (List Nat))
      (fwdSrc fwdDst : List (List Nat))
  | go (qs qd : List (List Nat)) (fwdSrc fwdDst : List (List Nat))
deriving DecidableEq, Repr

/-- Embeds one iteration of `proxy_loop`.  `qs`/`qd` are the streams of
chunks `recv` will return on the client-side and destination-side sockets
(a ready socket with an exhausted stream or an empty head chunk models the
peer's EOF, the zero-length read).  `select` reports the ready sockets in
the order they were passed, client first; each ready socket is read once,
a zero-length read returns immediately, and otherwise the chunk is sent
verbatim to the other socket. -/
def relayStep (it : Iter) (qs qd : List (List Nat)) : StepOut :=
  if it.exitNow then .stop .exitSignal qs qd [] []
  else if it.selectError then .stop .selectError qs qd [] []
  else if it.readySrc then
    let c := qs.headD []
    let qs' := qs.drop 1
    if c.isEmpty then .stop .peerClosed qs' qd [] []
    else if it.readyDst then
      let d := qd.headD []
      let qd' := qd.drop 1
      if d.isEmpty then .stop .peerClosed qs' qd' [] [c]
      else .go qs' qd' [d] [c]
    else .go qs' qd [] [c]
  else if it.readyDst then
    let d := qd.headD []
    let qd' := qd.drop 1
    if d.isEmpty then .stop .peerClosed qs qd' [] []
    else .go qs qd' [d] []
  else .go qs qd [] []

/-- Embeds `proxy_loop` over a finite schedule of iterations. -/
def proxy_loop : List Iter → List (List Nat) → List (List Nat) → LoopResult
  | [], qs, qd => ⟨[], [], qs, qd, .scheduleEnd⟩
  | it :: rest, qs, qd =>
    match relayStep it qs qd with
    | .stop reason qs' qd' fs fd => ⟨fs, fd, qs', qd', reason⟩
    | .go qs' qd' fs fd =>
      let r := proxy_loop rest qs' qd'
      ⟨fs ++ r.sentToSrc, fd ++ r.sentToDst, r.srcRest, r.dstRest, r.reason⟩

/-! ## Accept loop throttle (`main`, src/pysoxy.py lines 441-457) -/

/-- Events the accept loop observes between gate checks: an execution
unit exiting, or an accepted socket arriving at the gate
`if activeCount() > MAX_THREADS`. -/
inductive AcceptEvent where
  | arrive
  | finish
deriving DecidableEq, Repr

/-- Threads counted by `threading.activeCount()` besides the
per-connection execution units: the main thread running the accept loop
and the WPAD HTTP-server thread started at src/pysoxy.py lines 431-433,
a daemon thread that stays alive for the whole run.  So with `units`
active execution units, `activeCount()` returns `units + BASE_THREADS`. -/
def BASE_THREADS : Nat := 2

/-- Embeds one accept-loop decision (src/pysoxy.py lines 441-457) in
terms of the number `units` of active execution units: an arrival is
dispatched to a new unit (unit count grows by one) unless
`activeCount() = units + BASE_THREADS` strictly exceeds `MAX_THREADS`,
in which case the loop sleeps and the arrival is not dispatched. -/
def acceptStep (units : Nat) (e : AcceptEvent) : Nat :=
  match e with
  | .finish => units - 1
  | .arrive =>
    if units + BASE_THREADS > MAX_THREADS then units else units + 1

/-- The active unit count after the accept loop processes a list of
events. -/
def acceptRun (evs : List AcceptEvent) (u0 : Nat) : Nat :=
  evs.foldl acceptStep u0

/-! ## Read granularity (one `recv` per phase) -/

/-- Embeds a single `wrapper.recv(BUFSIZE)` against a stream of pending
chunks: it returns the next chunk (at most `BUFSIZE` bytes of it) and
never merges chunks. -/
def recvOnce (stream : List (List Nat)) : List Nat × List (List Nat) :=
  ((stream.headD []).take BUFSIZE, stream.drop 1)

/-- Which bytes each phase of `connection` parsed, given the chunk stream
the client socket delivers: the handshake frame is whatever the first
`recv` returned, and (when the handshake succeeds) the request frame is
whatever the second `recv` returned; `restStream` is untouched input left
for the relay phase. -/
structure PhaseReadTrace where
  handshakeInput : List Nat
  requestInput : Option (List Nat)
  restStream : List (List Nat)
deriving DecidableEq, Repr

/-- Embeds the read structure of `connection`: exactly one `recv` in
`subnegotiation_client` and, if negotiation succeeds, exactly one `recv`
in `request_client`, each parsed alone as a complete frame. -/
def connectionReads (sendOk : Bool) (stream : List (List Nat)) :
    PhaseReadTrace :=
  let r1 := recvOnce stream
  match subnegotiation_client r1.1 with
  | .raiseIndexError => ⟨r1.1, none, r1.2⟩
  | .method m =>
    if m ≠ M_NOAUTH ∨ ¬ sendOk then ⟨r1.1, none, r1.2⟩
    else
      let r2 := recvOnce r1.2
      ⟨r1.1, some r2.1, r2.2⟩

/-! ## Claim C1 -/

/-- C1 counterexample: on the concrete handshake input `[0x05, 0x01, 0x01]`
(one offered method, GSSAPI, no `0x00`), `subnegotiation` returns `False`
having sent nothing at all — in particular, not the `(0x05, 0xFF)` reply
the claim asserts — and the execution unit exits without closing the
client socket, so "the connection is closed" also fails. -/
theorem subnegotiation_failure_no_reply_cex :
    subnegotiation true [5, 1, 1] = ⟨false, [], false⟩ ∧
    (subnegotiation true [5, 1, 1]).sent ≠ [[VER, M_NOTAVAILABLE]] ∧
    (runConnection ⟨[5, 1, 1], true, false, [], true, true⟩).clientCloses = 0 := by
  decide

/-- C1 (amended): for every handshake input on which the negotiator
selects "no acceptable methods", `subnegotiation` fails with an empty send
list (no `(0x05, 0xFF)` reply is ever sent) and the execution unit exits
without entering the request phase and without closing the client
socket. -/
theorem subnegotiation_failure_silent (sendOk : Bool) (pkt : List Nat)
    (w : ConnWorld)
    (hm : subnegotiation_client pkt = .method M_NOTAVAILABLE)
    (hw : w.handshakePkt = pkt) :
    (subnegotiation sendOk pkt).success = false ∧
    (subnegotiation sendOk pkt).sent = [] ∧
    (runConnection w).clientCloses = 0 ∧
    (runConnection w).dstOpened = false := by
  unfold subnegotiation runConnection
  rw [hw, hm]
  simp [M_NOTAVAILABLE, M_NOAUTH]

/-- Witness for `subnegotiation_failure_silent` at the input
`[0x05, 0x01, 0x01]`. -/
theorem subnegotiation_failure_silent_witness :
    (subnegotiation true [5, 1, 1]).sent = [] ∧
    (runConnection ⟨[5, 1, 1], true, false, [], true, true⟩).clientCloses = 0 :=
  ⟨(subnegotiation_failure_silent true [5, 1, 1]
      ⟨[5, 1, 1], true, false, [], true, true⟩ (by decide) rfl).2.1,
   (subnegotiation_failure_silent true [5, 1, 1]
      ⟨[5, 1, 1], true, false, [], true, true⟩ (by decide) rfl).2.2.1⟩

/-! ## Claim C5 -/

/-- C5: for every handshake input with version byte `0x05`, a declared
method count equal to the number of method bytes present, and `0x00`
among the offered methods, negotiation succeeds and exactly one 2-byte
reply `(0x05, 0x00)` is sent to the client (the send list is exactly
that one reply). -/
theorem subnegotiation_noauth_success (n : Nat) (methods : List Nat)
    (hlen : methods.length = n) (hmem : M_NOAUTH ∈ methods) :
    subnegotiation true (VER :: n :: methods) = ⟨true, [[VER, M_NOAUTH]], false⟩ := by
  unfold subnegotiation subnegotiation_client
  simp [hlen, hmem]

/-- Witness for `subnegotiation_noauth_success` at the two-method input
`[0x05, 0x02, 0x00, 0x01]`. -/
theorem subnegotiation_noauth_success_witness :
    subnegotiation true [VER, 2, M_NOAUTH, 1] = ⟨true, [[VER, M_NOAUTH]], false⟩ :=
  subnegotiation_noauth_success 2 [M_NOAUTH, 1] (by decide) (by decide)

/-! ## Claim C2 -/

/-- C2 counterexample: the concrete request `[0x05, 0x02, 0x00, ...]`
(BIND, an unsupported command) produces the reply with status byte
`0x01`, not the `0x07` the claim asserts for unsupported commands: the
initial `rep = b'\x07'` is always overwritten before sending. -/
theorem requestReply_parse_failure_rep_cex :
    requestReply [5, 2, 0, 1, 127, 0, 0, 1, 0, 80] ⟨false, [], 0⟩ =
      .sent [5, 1, 0, 1, 0, 0, 0, 0, 0, 0] ∧
    requestReply [5, 2, 0, 1, 127, 0, 0, 1, 0, 80] ⟨false, [], 0⟩ ≠
      .sent [5, 7, 0, 1, 0, 0, 0, 0, 0, 0] := by
  decide

/-- C2 (amended): for every connection that reaches the resolution stage,
the reply status byte is `0x01` both when the request is malformed or the
command unsupported and when parsing succeeded but the outbound connect
failed (the `0x07` default is dead: it is overwritten before the reply is
sent); in every failure case the reply carries an all-zero 4-byte bound
address and zero port. -/
theorem requestReply_failure_rep_one (s5 : List Nat) (conn : ConnectAttempt) :
    (request_client s5 = .fail →
      requestReply s5 conn = .sent [VER, 1, 0, ATYP_IPV4, 0, 0, 0, 0, 0, 0]) ∧
    (∀ a p, request_client s5 = .ok a p → conn.ok = false →
      requestReply s5 conn = .sent [VER, 1, 0, ATYP_IPV4, 0, 0, 0, 0, 0, 0]) := by
  constructor
  · intro h
    simp [requestReply, h]
  · intro a p h hc
    simp [requestReply, h, hc]

/-- Witness for `requestReply_failure_rep_one`: a well-formed IPv4 CONNECT
request whose outbound connect fails gets the `0x01` all-zero reply. -/
theorem requestReply_failure_rep_one_witness :
    requestReply [5, 1, 0, 1, 127, 0, 0, 1, 0, 80] ⟨false, [], 0⟩ =
      .sent [VER, 1, 0, ATYP_IPV4, 0, 0, 0, 0, 0, 0] :=
  (requestReply_failure_rep_one [5, 1, 0, 1, 127, 0, 0, 1, 0, 80]
      ⟨false, [], 0⟩).2 (.ipv4 [127, 0, 0, 1]) 80 (by decide) rfl

/-! ## Claim C6 -/

/-- C6 counterexample: with the outbound interface configured and the
binding denied for lack of privilege, `connect_to_dst` still attempts the
outbound connect, which can succeed — refuting both "exits fatally at
startup" (the failure is observed inside the per-connection connect
routine, which merely sets the exit flag) and "no outbound connect
proceeds under a configuration that could not be honored". -/
theorem connect_to_dst_bind_failure_cex :
    (connect_to_dst true false true).exitFlagSet = true ∧
    (connect_to_dst true false true).connectAttempted = true ∧
    (connect_to_dst true false true).connected = true := by
  decide

/-- C6 (amended): a privilege failure applying the outbound interface
binding is handled inside the per-connection connect routine: it sets the
process-wide exit flag (so the accept and relay loops stop at their next
check) but the current outbound connect still proceeds; when the binding
succeeds the flag is untouched. -/
theorem connect_to_dst_bind_failure_behavior :
    (∀ connectOk : Bool,
      connect_to_dst true false connectOk = ⟨true, true, connectOk⟩) ∧
    (∀ iface connectOk : Bool,
      connect_to_dst iface true connectOk = ⟨false, true, connectOk⟩) := by
  constructor
  · intro connectOk
    simp [connect_to_dst]
  · intro iface connectOk
    simp [connect_to_dst]

/-! ## Claim C8 -/

/-- C8: `threading.activeCount()` counts the main and WPAD threads
besides the execution units, so with the unit count at (or above)
`MAX_THREADS` the gate reads at least `MAX_THREADS + BASE_THREADS`,
which exceeds `MAX_THREADS`, and the accept loop sleeps without
dispatching the accepted socket; a dispatch can happen only with the
unit count strictly below the maximum (in fact at
`MAX_THREADS - BASE_THREADS` or less); and in the sequential model the
active unit count never exceeds the ceiling at all. -/
theorem accept_ceiling_units :
    (∀ u : Nat, MAX_THREADS ≤ u → acceptStep u .arrive = u) ∧
    (∀ u : Nat, acceptStep u .arrive ≠ u →
      u + BASE_THREADS ≤ MAX_THREADS ∧ u < MAX_THREADS) ∧
    (∀ (evs : List AcceptEvent) (u0 : Nat), u0 ≤ MAX_THREADS →
      acceptRun evs u0 ≤ MAX_THREADS) := by
  refine ⟨?_, ?_, ?_⟩
  · intro u h
    simp only [acceptStep, MAX_THREADS, BASE_THREADS] at h ⊢
    rw [if_pos (by omega)]
  · intro u h
    simp only [acceptStep, MAX_THREADS, BASE_THREADS] at h ⊢
    by_cases hc : u + 2 > 200
    · rw [if_pos hc] at h
      exact absurd rfl h
    · exact ⟨by omega, by omega⟩
  · intro evs
    induction evs with
    | nil =>
      intro u0 h
      simpa [acceptRun] using h
    | cons e t ih =>
      intro u0 h
      simp only [acceptRun, List.foldl_cons] at ih ⊢
      apply ih
      cases e <;> simp only [acceptStep, MAX_THREADS, BASE_THREADS] at h ⊢ <;>
        first
          | omega
          | (split <;> omega)

/-- Witness for `accept_ceiling_units`: at the ceiling the arrival is
not dispatched, a dispatch at 100 units stays far below the ceiling, and
a concrete event run from the ceiling never exceeds it. -/
theorem accept_ceiling_units_witness :
    acceptStep 200 .arrive = 200 ∧
    (100 + BASE_THREADS ≤ MAX_THREADS ∧ 100 < MAX_THREADS) ∧
    acceptRun [.arrive, .finish, .arrive] 200 ≤ MAX_THREADS :=
  ⟨accept_ceiling_units.1 200 (by decide),
   accept_ceiling_units.2.1 100 (by decide),
   accept_ceiling_units.2.2 [.arrive, .finish, .arrive] 200 (by decide)⟩

/-! ## Truncated-frame helper lemmas -/

/-- A `struct.error`: `unpack(">H", bs)` fails on every buffer whose
length is not exactly 2. -/
theorem unpackPortBE_eq_none (bs : List Nat) (h : bs.length ≠ 2) :
    unpackPortBE bs = none := by
  match bs with
  | [] => rfl
  | [a] => rfl
  | [a, b] => exact absurd rfl h
  | a :: b :: c :: t => rfl

/-- Definitional reduction of `request_client` on a well-prefixed
domain-name frame with a symbolic declared length and tail: the three
slice checks pass, the ATYP dispatch picks the domain arm, and `sz` is
the declared length byte. -/
theorem request_client_domain_reduce (L : Nat) (t : List Nat) :
    request_client (5 :: 1 :: 0 :: 3 :: L :: t) =
      (match unpackPortBE ((((5 : Nat) :: 1 :: 0 :: 3 :: L :: t).drop
          (5 + L)).take 2) with
        | some port => ReqResult.ok (.domain (t.take L)) port
        | none => ReqResult.raiseStructError) := rfl

/-- Definitional reduction of `request_client` on a well-prefixed IPv4
frame with a symbolic tail. -/
theorem request_client_ipv4_reduce (t : List Nat) :
    request_client (5 :: 1 :: 0 :: 1 :: t) =
      (if (t.take 4).length ≠ 4 then ReqResult.raiseOSError
       else match unpackPortBE ((t.drop 4).take 2) with
         | some port => ReqResult.ok (.ipv4 (t.take 4)) port
         | none => ReqResult.raiseStructError) := rfl

/-- A domain-name request frame whose declared name length leaves fewer
than 2 bytes for the port makes `request_client` raise an uncaught
`struct.error` from `unpack`. -/
theorem request_client_domain_short (f : List Nat) (L : Nat)
    (htake : f.take 5 = [VER, CMD_CONNECT, 0, ATYP_DOMAINNAME, L])
    (hlen : f.length < 7 + L) :
    request_client f = .raiseStructError := by
  have h5 : f = 5 :: 1 :: 0 :: 3 :: L :: f.drop 5 := by
    have h := List.take_append_drop 5 f
    rw [htake] at h
    exact h.symm
  have hlen5 : f.length = 5 + (f.drop 5).length := by
    conv_lhs => rw [h5]
    simp only [List.length_cons]
    omega
  rw [h5, request_client_domain_reduce]
  have hdrop : ((5 : Nat) :: 1 :: 0 :: 3 :: L :: f.drop 5).drop (5 + L) =
      (f.drop 5).drop L := by
    rw [← List.drop_drop]
    rfl
  have hnone : unpackPortBE (((f.drop 5).drop L).take 2) = none := by
    apply unpackPortBE_eq_none
    simp only [List.length_take, List.length_drop]
    omega
  rw [hdrop, hnone]

/-- An IPv4 request frame shorter than its 10-byte layout makes
`request_client` raise an uncaught `OSError` from `inet_ntoa` (address
slice shorter than 4 bytes) or `struct.error` from `unpack` (port slice
shorter than 2 bytes). -/
theorem request_client_ipv4_short (f : List Nat)
    (htake : f.take 4 = [VER, CMD_CONNECT, 0, ATYP_IPV4])
    (hlen : f.length < 10) :
    request_client f = .raiseOSError ∨ request_client f = .raiseStructError := by
  have h4 : f = 5 :: 1 :: 0 :: 1 :: f.drop 4 := by
    have h := List.take_append_drop 4 f
    rw [htake] at h
    exact h.symm
  have hlen4 : f.length = 4 + (f.drop 4).length := by
    conv_lhs => rw [h4]
    simp only [List.length_cons]
    omega
  rw [h4, request_client_ipv4_reduce]
  by_cases hshort : (f.drop 4).length < 4
  · left
    have hcond : ((f.drop 4).take 4).length ≠ 4 := by
      simp only [List.length_take, List.length_drop] at hshort ⊢
      omega
    rw [if_pos hcond]
  · right
    have hcond : ¬ ((f.drop 4).take 4).length ≠ 4 := by
      simp only [List.length_take, List.length_drop] at hshort ⊢
      omega
    have hnone : unpackPortBE (((f.drop 4).drop 4).take 2) = none := by
      apply unpackPortBE_eq_none
      simp only [List.length_take, List.length_drop]
      omega
    rw [if_neg hcond, hnone]

/-- A domain-name request frame with a correctly delimited name and port
parses exactly, any trailing bytes after the port being silently
ignored. -/
theorem request_client_domain_exact (L : Nat) (name rest : List Nat)
    (p0 p1 : Nat) (hlen : name.length = L) :
    request_client
        ([VER, CMD_CONNECT, 0, ATYP_DOMAINNAME, L] ++ name ++ [p0, p1] ++ rest) =
      .ok (.domain name) (p0 * 256 + p1) := by
  subst hlen
  have hlist :
      ([VER, CMD_CONNECT, 0, ATYP_DOMAINNAME, name.length] ++ name ++ [p0, p1]
          ++ rest) =
        5 :: 1 :: 0 :: 3 :: name.length :: (name ++ p0 :: p1 :: rest) := by
    simp [VER, CMD_CONNECT, ATYP_DOMAINNAME, List.append_assoc]
  rw [hlist, request_client_domain_reduce]
  have hdrop : ((5 : Nat) :: 1 :: 0 :: 3 :: name.length ::
      (name ++ p0 :: p1 :: rest)).drop (5 + name.length) =
        (name ++ p0 :: p1 :: rest).drop name.length := by
    rw [← List.drop_drop]
    rfl
  rw [hdrop, List.drop_left name (p0 :: p1 :: rest),
    List.take_left name (p0 :: p1 :: rest)]
  rfl

/-! ## Claim C4 -/

/-- C4 counterexample: the concrete domain frame
`[0x05, 0x01, 0x00, 0x03, 0x01, 0x61, 0x00]` declares a 1-byte name but
supplies only one port byte; `request_client` does not reject it as a
clean decode failure (`False`) — it raises an uncaught `struct.error`. -/
theorem request_client_domain_truncated_cex :
    request_client [5, 1, 0, 3, 1, 97, 0] = .raiseStructError ∧
    request_client [5, 1, 0, 3, 1, 97, 0] ≠ .fail := by
  decide

/-- C4 (amended): the domain-name parser takes the name to be bytes
`[5, 5+L)` and the port to be bytes `[5+L, 5+L+2)`, so a correctly
delimited frame parses exactly — but boundary disagreements are not
rejected as decode failures: trailing extra bytes are silently ignored
(first conjunct, with arbitrary `rest`), and a frame too short for the
declared boundaries raises an uncaught `struct.error` instead of
returning the clean failure value (second conjunct). -/
theorem request_client_domain_boundaries :
    (∀ (L : Nat) (name rest : List Nat) (p0 p1 : Nat), name.length = L →
      request_client
          ([VER, CMD_CONNECT, 0, ATYP_DOMAINNAME, L] ++ name ++ [p0, p1]
            ++ rest) = .ok (.domain name) (p0 * 256 + p1)) ∧
    (∀ (f : List Nat) (L : Nat),
      f.take 5 = [VER, CMD_CONNECT, 0, ATYP_DOMAINNAME, L] →
      f.length < 7 + L → request_client f = .raiseStructError) :=
  ⟨request_client_domain_exact, request_client_domain_short⟩

/-- Witness for `request_client_domain_boundaries`: an exactly delimited
3-byte name parses, and a frame two bytes short of its declared layout
raises. -/
theorem request_client_domain_boundaries_witness :
    request_client
        ([VER, CMD_CONNECT, 0, ATYP_DOMAINNAME, 3] ++ [97, 98, 99] ++ [0, 80]
          ++ []) = .ok (.domain [97, 98, 99]) (0 * 256 + 80) ∧
    request_client [5, 1, 0, 3, 5, 97, 98] = .raiseStructError :=
  ⟨request_client_domain_boundaries.1 3 [97, 98, 99] [] 0 80 rfl,
   request_client_domain_boundaries.2 [5, 1, 0, 3, 5, 97, 98] 5 (by decide)
     (by decide)⟩

/-! ## Claim C9 -/

/-- C9 counterexample: the handshake buffer `[0x05, 0x05]` is non-empty,
has the matching version byte, and is reported as a clean failure
(`M_NOTAVAILABLE`) because its declared method count disagrees with the
zero method bytes present — contradicting the claim that only the empty
buffer and version/command mismatches are reported cleanly. -/
theorem clean_failure_list_cex :
    subnegotiation_client [5, 5] = .method M_NOTAVAILABLE ∧
    ([5, 5] : List Nat) ≠ [] ∧
    ([5, 5] : List Nat).take 1 = [VER] := by
  decide

/-- C9 (amended): the wire decoders are not total over truncated inputs:
the 1-byte handshake buffer `[0x05]` raises an uncaught `IndexError`; an
IPv4 CONNECT frame shorter than 10 bytes raises an uncaught `OSError` or
`struct.error`; a domain frame whose declared name length leaves fewer
than 2 bytes for the port raises an uncaught `struct.error`.  The clean
failures are: the empty handshake buffer, handshake version mismatches,
and declared-method-count mismatches (and, in the request parser, the
version/command/RSV checks and unknown address types). -/
theorem decoder_partiality :
    subnegotiation_client [VER] = .raiseIndexError ∧
    (∀ f : List Nat, f.take 4 = [VER, CMD_CONNECT, 0, ATYP_IPV4] →
      f.length < 10 →
      request_client f = .raiseOSError ∨ request_client f = .raiseStructError) ∧
    (∀ (f : List Nat) (L : Nat),
      f.take 5 = [VER, CMD_CONNECT, 0, ATYP_DOMAINNAME, L] →
      f.length < 7 + L → request_client f = .raiseStructError) ∧
    subnegotiation_client [] = .method M_NOTAVAILABLE ∧
    (∀ (b : Nat) (rest : List Nat), b ≠ VER →
      subnegotiation_client (b :: rest) = .method M_NOTAVAILABLE) ∧
    (∀ (n : Nat) (methods : List Nat), methods.length ≠ n →
      subnegotiation_client (VER :: n :: methods) = .method M_NOTAVAILABLE) := by
  refine ⟨by decide, request_client_ipv4_short, request_client_domain_short,
    by decide, ?_, ?_⟩
  · intro b rest hb
    simp [subnegotiation_client, hb]
  · intro n methods hn
    simp [subnegotiation_client, hn]

/-- Witness for `decoder_partiality` at concrete truncated frames. -/
theorem decoder_partiality_witness :
    (request_client [5, 1, 0, 1, 127, 0] = .raiseOSError ∨
      request_client [5, 1, 0, 1, 127, 0] = .raiseStructError) ∧
    request_client [5, 1, 0, 3, 4, 104, 105, 0] = .raiseStructError ∧
    subnegotiation_client [4, 1, 0] = .method M_NOTAVAILABLE ∧
    subnegotiation_client [5, 3, 0] = .method M_NOTAVAILABLE :=
  ⟨decoder_partiality.2.1 [5, 1, 0, 1, 127, 0] (by decide) (by decide),
   decoder_partiality.2.2.1 [5, 1, 0, 3, 4, 104, 105, 0] 4 (by decide)
     (by decide),
   decoder_partiality.2.2.2.2.1 4 [1, 0] (by decide),
   decoder_partiality.2.2.2.2.2 3 [0] (by decide)⟩

/-! ## Claim C3 -/

/-- C3 counterexample: on the concrete run where the handshake and request
succeed, the outbound connect succeeds, but sending the reply fails,
`request` closes the wrapper in the `except socket.error` handler and
returns — the successfully opened destination socket is never closed,
refuting "closed exactly once on every exit path". -/
theorem runConnection_dst_leak_cex :
    (runConnection ⟨[5, 1, 0], true, false, [5, 1, 0, 1, 10, 0, 0, 1, 0, 80],
        true, false⟩).dstOpened = true ∧
    (runConnection ⟨[5, 1, 0], true, false, [5, 1, 0, 1, 10, 0, 0, 1, 0, 80],
        true, false⟩).dstCloses = 0 := by
  decide

/-- C3 (amended): the close behavior depends on the exit path.  Handshake
failure (method mismatch) closes nothing; a `ConnectionResetError` during
the request read closes the client socket twice (once in the handler, once
when the subsequent reply send on the closed socket fails); a clean parse
failure or a failed connect closes the client socket exactly once with no
destination socket opened; after a successful connect, a failed reply send
closes only the client socket and leaks the destination socket; only the
full success path closes both sockets exactly once. -/
theorem runConnection_close_paths (w : ConnWorld) :
    (∀ m, subnegotiation_client w.handshakePkt = .method m → m ≠ M_NOAUTH →
      runConnection w = ⟨0, false, 0, false⟩) ∧
    (subnegotiation_client w.handshakePkt = .method M_NOAUTH →
      w.handshakeSendOk = true → w.requestRecvReset = true →
      runConnection w = ⟨2, false, 0, false⟩) ∧
    (subnegotiation_client w.handshakePkt = .method M_NOAUTH →
      w.handshakeSendOk = true → w.requestRecvReset = false →
      request_client w.requestPkt = .fail →
      runConnection w = ⟨1, false, 0, false⟩) ∧
    (∀ a p, subnegotiation_client w.handshakePkt = .method M_NOAUTH →
      w.handshakeSendOk = true → w.requestRecvReset = false →
      request_client w.requestPkt = .ok a p → w.connectOk = false →
      runConnection w = ⟨1, false, 0, false⟩) ∧
    (∀ a p, subnegotiation_client w.handshakePkt = .method M_NOAUTH →
      w.handshakeSendOk = true → w.requestRecvReset = false →
      request_client w.requestPkt = .ok a p → w.connectOk = true →
      w.replySendOk = false →
      runConnection w = ⟨1, true, 0, false⟩) ∧
    (∀ a p, subnegotiation_client w.handshakePkt = .method M_NOAUTH →
      w.handshakeSendOk = true → w.requestRecvReset = false →
      request_client w.requestPkt = .ok a p → w.connectOk = true →
      w.replySendOk = true →
      runConnection w = ⟨1, true, 1, false⟩) := by
  refine ⟨?_, ?_, ?_, ?_, ?_, ?_⟩
  · intro m hm hne
    unfold runConnection
    rw [hm]
    simp [hne]
  · intro hm hsend hreset
    unfold runConnection
    rw [hm]
    simp [hsend, hreset]
  · intro hm hsend hreset hreq
    unfold runConnection
    rw [hm]
    simp [hsend, hreset, hreq]
  · intro a p hm hsend hreset hreq hconn
    unfold runConnection
    rw [hm]
    simp [hsend, hreset, hreq, hconn]
  · intro a p hm hsend hreset hreq hconn hreply
    unfold runConnection
    rw [hm]
    simp [hsend, hreset, hreq, hconn, hreply]
  · intro a p hm hsend hreset hreq hconn hreply
    unfold runConnection
    rw [hm]
    simp [hsend, hreset, hreq, hconn, hreply]

/-- Witness for `runConnection_close_paths` on the full success path and
the reset path. -/
theorem runConnection_close_paths_witness :
    runConnection ⟨[5, 1, 0], true, false, [5, 1, 0, 1, 10, 0, 0, 1, 0, 80],
        true, true⟩ = ⟨1, true, 1, false⟩ ∧
    runConnection ⟨[5, 1, 0], true, true, [], true, true⟩ =
      ⟨2, false, 0, false⟩ :=
  ⟨(runConnection_close_paths ⟨[5, 1, 0], true, false,
        [5, 1, 0, 1, 10, 0, 0, 1, 0, 80], true, true⟩).2.2.2.2.2
      (.ipv4 [10, 0, 0, 1]) 80 (by decide) rfl rfl (by decide) rfl rfl,
   (runConnection_close_paths ⟨[5, 1, 0], true, true, [], true, true⟩).2.1
      (by decide) rfl rfl⟩

/-! ## Claim C10 -/

/-- C10: each phase performs exactly one `recv` of at most `BUFSIZE`
bytes: the handshake parses exactly the first chunk the socket delivers
(truncated at `BUFSIZE`), the request phase — when reached — parses
exactly the second chunk, and the relay inherits the stream from the third
chunk on; frames are never reassembled across reads, so the valid frame
`[0x05, 0x01, 0x00]` split after two bytes is parsed from its first
fragment `[0x05, 0x01]` alone (declared one method, none present: clean
failure), even though the whole frame would negotiate successfully. -/
theorem connectionReads_single_recv (sendOk : Bool)
    (stream : List (List Nat)) :
    (connectionReads sendOk stream).handshakeInput =
      (stream.headD []).take BUFSIZE ∧
    (∀ r, (connectionReads sendOk stream).requestInput = some r →
      r = ((stream.drop 1).headD []).take BUFSIZE ∧
      (connectionReads sendOk stream).restStream = stream.drop 2) ∧
    subnegotiation_client [VER, 1] = .method M_NOTAVAILABLE ∧
    subnegotiation_client [VER, 1, M_NOAUTH] = .method M_NOAUTH := by
  refine ⟨?_, ?_, by decide, by decide⟩
  · dsimp only [connectionReads, recvOnce]
    cases hs : subnegotiation_client ((stream.headD []).take BUFSIZE) with
    | raiseIndexError => rfl
    | method m =>
      dsimp only
      by_cases hc : m ≠ M_NOAUTH ∨ ¬ sendOk
      · rw [if_pos hc]
      · rw [if_neg hc]
  · intro r hr
    dsimp only [connectionReads, recvOnce] at hr ⊢
    cases hs : subnegotiation_client ((stream.headD []).take BUFSIZE) with
    | raiseIndexError =>
      rw [hs] at hr
      simp at hr
    | method m =>
      rw [hs] at hr
      dsimp only at hr ⊢
      by_cases hc : m ≠ M_NOAUTH ∨ ¬ sendOk
      · rw [if_pos hc] at hr
        simp at hr
      · rw [if_neg hc] at hr ⊢
        dsimp only at hr ⊢
        refine ⟨by simpa using hr.symm, ?_⟩
        rw [List.drop_drop]

/-- Witness for `connectionReads_single_recv`: with a concrete 3-chunk
stream the request phase parses exactly the second chunk and the relay
inherits the third. -/
theorem connectionReads_single_recv_witness :
    ([5, 1, 0, 1, 10, 0, 0, 1, 0, 80] : List Nat) =
      (([[5, 1, 0], [5, 1, 0, 1, 10, 0, 0, 1, 0, 80],
          [104, 105]].drop 1).headD []).take BUFSIZE ∧
    (connectionReads true
        [[5, 1, 0], [5, 1, 0, 1, 10, 0, 0, 1, 0, 80], [104, 105]]).restStream =
      [[5, 1, 0], [5, 1, 0, 1, 10, 0, 0, 1, 0, 80], [104, 105]].drop 2 :=
  (connectionReads_single_recv true
      [[5, 1, 0], [5, 1, 0, 1, 10, 0, 0, 1, 0, 80], [104, 105]]).2.1
    [5, 1, 0, 1, 10, 0, 0, 1, 0, 80] (by decide)

/-! ## Relay loop lemmas -/

/-- Filtering the one-chunk prefix keeps the head chunk when it is
non-empty. -/
theorem filter_take_one_of_head_nonempty (q : List (List Nat))
    (h : ¬ (q.headD []).isEmpty = true) :
    (q.take 1).filter (fun c => !c.isEmpty) = [q.headD []] := by
  cases q with
  | nil => simp at h
  | cons x t =>
    simp only [List.headD_cons] at h ⊢
    simp [Bool.not_eq_true] at h
    simp [h]

/-- Each chunk `relayStep` forwards comes verbatim from the head of the
matching stream: on a `go` outcome the streams advance by the number of
chunks read and the forwarded lists are exactly the non-empty chunks
read. -/
theorem relayStep_go_spec (it : Iter) (qs qd qs' qd' fs fd : List (List Nat))
    (h : relayStep it qs qd = .go qs' qd' fs fd) :
    ∃ a b, qs' = qs.drop a ∧ qd' = qd.drop b ∧
      fd = (qs.take a).filter (fun c => !c.isEmpty) ∧
      fs = (qd.take b).filter (fun c => !c.isEmpty) := by
  obtain ⟨e, se, rs, rd⟩ := it
  cases e <;> cases se <;> cases rs <;> cases rd <;>
    simp only [relayStep, Bool.false_eq_true, if_false, if_true] at h
  all_goals try exact StepOut.noConfusion h
  · -- neither socket ready: the `continue` branch
    injection h with e1 e2 e3 e4
    exact ⟨0, 0, e1.symm, e2.symm, e4.symm, e3.symm⟩
  · -- only the destination ready
    by_cases hd : (qd.headD []).isEmpty = true
    · rw [if_pos hd] at h
      exact StepOut.noConfusion h
    · rw [if_neg hd] at h
      injection h with e1 e2 e3 e4
      refine ⟨0, 1, e1.symm, e2.symm, ?_, ?_⟩
      · rw [← e4]
        rfl
      · rw [← e3, filter_take_one_of_head_nonempty qd hd]
  · -- only the client ready
    by_cases hc : (qs.headD []).isEmpty = true
    · rw [if_pos hc] at h
      exact StepOut.noConfusion h
    · rw [if_neg hc] at h
      injection h with e1 e2 e3 e4
      refine ⟨1, 0, e1.symm, e2.symm, ?_, ?_⟩
      · rw [← e4, filter_take_one_of_head_nonempty qs hc]
      · rw [← e3]
        rfl
  · -- both sockets ready
    by_cases hc : (qs.headD []).isEmpty = true
    · rw [if_pos hc] at h
      exact StepOut.noConfusion h
    · rw [if_neg hc] at h
      by_cases hd : (qd.headD []).isEmpty = true
      · rw [if_pos hd] at h
        exact StepOut.noConfusion h
      · rw [if_neg hd] at h
        injection h with e1 e2 e3 e4
        refine ⟨1, 1, e1.symm, e2.symm, ?_, ?_⟩
        · rw [← e4, filter_take_one_of_head_nonempty qs hc]
        · rw [← e3, filter_take_one_of_head_nonempty qd hd]

/-- On a `stop` outcome the chunks forwarded before the return are
exactly the non-empty chunks among those read. -/
theorem relayStep_stop_spec (it : Iter) (qs qd qs' qd' fs fd : List (List Nat))
    (reason : StopReason)
    (h : relayStep it qs qd = .stop reason qs' qd' fs fd) :
    ∃ a b, fd = (qs.take a).filter (fun c => !c.isEmpty) ∧
      fs = (qd.take b).filter (fun c => !c.isEmpty) := by
  obtain ⟨e, se, rs, rd⟩ := it
  cases e <;> cases se <;> cases rs <;> cases rd <;>
    simp only [relayStep, Bool.false_eq_true, if_false, if_true] at h
  all_goals try
    (injection h with e0 e1 e2 e3 e4
     exact ⟨0, 0, e4.symm, e3.symm⟩)
  · -- neither socket ready: the loop continues, it cannot stop
    exact StepOut.noConfusion h
  · -- only the destination ready
    by_cases hd : (qd.headD []).isEmpty = true
    · rw [if_pos hd] at h
      injection h with e0 e1 e2 e3 e4
      exact ⟨0, 0, e4.symm, e3.symm⟩
    · rw [if_neg hd] at h
      exact StepOut.noConfusion h
  · -- only the client ready
    by_cases hc : (qs.headD []).isEmpty = true
    · rw [if_pos hc] at h
      injection h with e0 e1 e2 e3 e4
      exact ⟨0, 0, e4.symm, e3.symm⟩
    · rw [if_neg hc] at h
      exact StepOut.noConfusion h
  · -- both sockets ready
    by_cases hc : (qs.headD []).isEmpty = true
    · rw [if_pos hc] at h
      injection h with e0 e1 e2 e3 e4
      exact ⟨0, 0, e4.symm, e3.symm⟩
    · rw [if_neg hc] at h
      by_cases hd : (qd.headD []).isEmpty = true
      · rw [if_pos hd] at h
        injection h with e0 e1 e2 e3 e4
        refine ⟨1, 0, ?_, e3.symm⟩
        rw [← e4, filter_take_one_of_head_nonempty qs hc]
      · rw [if_neg hd] at h
        exact StepOut.noConfusion h

/-- Everything `proxy_loop` forwards in each direction is exactly the
non-empty prefix chunks consumed from the corresponding incoming stream,
in order: empty (zero-length) reads are never forwarded. -/
theorem proxy_loop_sent_filter (sched : List Iter) (qs qd : List (List Nat)) :
    ∃ k j, (proxy_loop sched qs qd).sentToDst =
        (qs.take k).filter (fun c => !c.isEmpty) ∧
      (proxy_loop sched qs qd).sentToSrc =
        (qd.take j).filter (fun c => !c.isEmpty) := by
  induction sched generalizing qs qd with
  | nil => exact ⟨0, 0, rfl, rfl⟩
  | cons it rest ih =>
    cases hstep : relayStep it qs qd with
    | stop reason qs' qd' fs fd =>
      obtain ⟨a, b, hfd, hfs⟩ :=
        relayStep_stop_spec it qs qd qs' qd' fs fd reason hstep
      refine ⟨a, b, ?_, ?_⟩ <;>
        simp only [proxy_loop, hstep] <;>
        assumption
    | go qs' qd' fs fd =>
      obtain ⟨a, b, hqs, hqd, hfd, hfs⟩ :=
        relayStep_go_spec it qs qd qs' qd' fs fd hstep
      obtain ⟨k, j, hk, hj⟩ := ih qs' qd'
      refine ⟨a + k, b + j, ?_, ?_⟩
      · simp only [proxy_loop, hstep]
        rw [List.take_add, List.filter_append, ← hfd, hk, hqs]
      · simp only [proxy_loop, hstep]
        rw [List.take_add, List.filter_append, ← hfs, hj, hqd]

/-- Once `proxy_loop` has returned (for any reason other than the modelled
schedule running out), extending the iteration schedule changes nothing:
no further bytes are forwarded in either direction. -/
theorem proxy_loop_append_stopped (sched extra : List Iter)
    (qs qd : List (List Nat))
    (h : (proxy_loop sched qs qd).reason ≠ .scheduleEnd) :
    proxy_loop (sched ++ extra) qs qd = proxy_loop sched qs qd := by
  induction sched generalizing qs qd with
  | nil => simp [proxy_loop] at h
  | cons it rest ih =>
    rw [List.cons_append]
    cases hstep : relayStep it qs qd with
    | stop reason qs' qd' fs fd =>
      simp only [proxy_loop, hstep]
    | go qs' qd' fs fd =>
      have h' : (proxy_loop rest qs' qd').reason ≠ .scheduleEnd := by
        intro hc
        apply h
        simp only [proxy_loop, hstep, hc]
      simp only [proxy_loop, hstep, ih qs' qd' h']

/-! ## Claim C7 -/

/-- C7: in every run of the relay loop, the chunks forwarded to the
destination are exactly the non-empty chunks read from the client stream
(and symmetrically), so every forwarded chunk is forwarded verbatim and a
zero-length read is never forwarded; and once the loop has terminated on
a zero-length read (`peerClosed`), extending the schedule forwards
nothing further in either direction. -/
theorem proxy_loop_zero_read (sched extra : List Iter)
    (qs qd : List (List Nat)) :
    (∃ k j, (proxy_loop sched qs qd).sentToDst =
        (qs.take k).filter (fun c => !c.isEmpty) ∧
      (proxy_loop sched qs qd).sentToSrc =
        (qd.take j).filter (fun c => !c.isEmpty)) ∧
    ((proxy_loop sched qs qd).reason = .peerClosed →
      proxy_loop (sched ++ extra) qs qd = proxy_loop sched qs qd) :=
  ⟨proxy_loop_sent_filter sched qs qd,
   fun h => proxy_loop_append_stopped sched extra qs qd
     (by rw [h]; exact fun hc => StopReason.noConfusion hc)⟩

/-- Witness for `proxy_loop_zero_read`: a concrete two-iteration schedule
where the client stream yields a zero-length read on the second
iteration; the appended extra iteration forwards nothing. -/
theorem proxy_loop_zero_read_witness :
    proxy_loop ([⟨false, false, true, true⟩, ⟨false, false, true, false⟩] ++
        [⟨false, false, true, true⟩]) [[1, 2], []] [[3]] =
      proxy_loop [⟨false, false, true, true⟩, ⟨false, false, true, false⟩]
        [[1, 2], []] [[3]] :=
  (proxy_loop_zero_read
      [⟨false, false, true, true⟩, ⟨false, false, true, false⟩]
      [⟨false, false, true, true⟩] [[1, 2], []] [[3]]).2 (by decide)
